import Mathlib

/-!
Verification of the `ServerManager` mixin of the upcloud-python-api client
(`src/upcloud/cloud_manager/server_mixin.py`).

The mixin translates between wire-format JSON and local domain objects
(`Server`, `Storage`, `IP_address`) and issues HTTP requests through the
`CloudManager` transport (`get_request` / `post_request` / `request`).

Embedding conventions:
* JSON values are a `Json` inductive; Python dictionaries become association
  lists with unique keys, `d[key]` becomes `Json.getKey` (raising `KeyError`
  when absent) and `d.pop(key)` becomes `Json.popKey`.
* The HTTP executor is a `Transport : Request -> Json` oracle.  Every mixin
  method returns its result (an `Except Err` value, since Python raises)
  together with the list of requests it issued, in order, so that the
  network behaviour of a call is a first-class object of the model.
* The `Server`, `Storage` and `IP_address` classes themselves are not part
  of the analysed file; the few of their methods the mixin calls are
  modelled from the specification and are marked as such in their
  doc comments.
-/

set_option autoImplicit false

namespace Upcloud

/-- Wire-format JSON values.  Objects are association lists; the Python
dictionaries they model have unique keys. -/
inductive Json where
  | null : Json
  | str : String → Json
  | num : Int → Json
  | bool : Bool → Json
  | arr : List Json → Json
  | obj : List (String × Json) → Json

/-- Errors a mixin call can raise: `validation` models the local
validation failures the spec calls `ValidationError`; `keyError` models a
Python `KeyError` on a missing dictionary key; `typeError` models using a
non-dict as a dict or a non-list as a list. -/
inductive Err where
  | validation : String → Err
  | keyError : String → Err
  | typeError : Err

/-- HTTP methods used by the mixin. -/
inductive Method where
  | GET | POST | PUT | DELETE
deriving DecidableEq

/-- One HTTP request issued through the `CloudManager` transport. -/
structure Request where
  method : Method
  path : String
  body : Option Json

/-- The HTTP executor: maps a request to the parsed JSON of its response.
Authentication and transport errors live below this layer. -/
def Transport : Type := Request → Json

/-- First value bound to `k` in an association list (Python dict lookup). -/
def lookupPairs : List (String × Json) → String → Option Json
  | [], _ => none
  | (k', v) :: rest, k => if k' = k then some v else lookupPairs rest k

/-- Remove every binding of `k` (Python dicts have unique keys, so this is
exactly `del d[k]`). -/
def removeKey : List (String × Json) → String → List (String × Json)
  | [], _ => []
  | (k', v) :: rest, k =>
      if k' = k then removeKey rest k else (k', v) :: removeKey rest k

/-- `d[k]` on a JSON value: `KeyError` when the key is absent, `TypeError`
when the value is not an object. -/
def Json.getKey : Json → String → Except Err Json
  | .obj kvs, k =>
      match lookupPairs kvs k with
      | some v => .ok v
      | none => .error (.keyError k)
  | _, _ => .error .typeError

/-- `d.pop(k)`: returns the value bound to `k` together with the object
without that key. -/
def Json.popKey : Json → String → Except Err (Json × Json)
  | .obj kvs, k =>
      match lookupPairs kvs k with
      | some v => .ok (v, .obj (removeKey kvs k))
      | none => .error (.keyError k)
  | _, _ => .error .typeError

/-- Key lookup as a total function (used to state absence of a key). -/
def Json.lookupKey : Json → String → Option Json
  | .obj kvs, k => lookupPairs kvs k
  | _, _ => none

/-- View a JSON value as a list (`TypeError` otherwise). -/
def Json.asArr : Json → Except Err (List Json)
  | .arr xs => .ok xs
  | _ => .error .typeError

/-- View a JSON value as a string, if it is one. -/
def Json.asStr : Json → Option String
  | .str s => some s
  | _ => none

/-- View a JSON value as an integer, if it is one. -/
def Json.asNum : Json → Option Int
  | .num n => some n
  | _ => none

/-- `isOk e` is true when `e` carries a value rather than an error. -/
def isOk {α : Type} : Except Err α → Bool
  | .ok _ => true
  | .error _ => false

theorem lookupPairs_removeKey_self (kvs : List (String × Json)) (k : String) :
    lookupPairs (removeKey kvs k) k = none := by
  induction kvs with
  | nil => rfl
  | cons kv rest ih =>
      obtain ⟨k', v⟩ := kv
      by_cases h : k' = k
      · simp [removeKey, h, ih]
      · simp [removeKey, lookupPairs, h, ih]

theorem lookupPairs_removeKey_of_none (kvs : List (String × Json)) (k k' : String)
    (h : lookupPairs kvs k = none) : lookupPairs (removeKey kvs k') k = none := by
  induction kvs with
  | nil => rfl
  | cons kv rest ih =>
      obtain ⟨k₀, v⟩ := kv
      by_cases hk : k₀ = k
      · simp [lookupPairs, hk] at h
      · simp only [lookupPairs, if_neg hk] at h
        by_cases hk' : k₀ = k'
        · simp [removeKey, hk', ih h]
        · simp [removeKey, hk', lookupPairs, hk, ih h]

/-- An IP address attached to a server (address string and access type). -/
structure IP_address where
  access : Option String
  address : Option String
deriving DecidableEq

/-- A storage device: `os` is the backing OS image (present only on the boot
volume); `size`, `tier` and `title` may be omitted on a draft. -/
structure Storage where
  os : Option String
  size : Option Int
  tier : Option String
  title : Option String
deriving DecidableEq

/-- A server object.  A draft has no `uuid`; a `populated` (hydrated) server
carries its `IP_address` and `Storage` children. -/
structure Server where
  uuid : Option String
  hostname : Option String
  core_number : Option Int
  memory_amount : Option Int
  zone : Option String
  title : Option String
  storage_devices : List Storage
  ip_addresses : List IP_address
  populated : Bool
deriving DecidableEq

/-- Modelled from the spec: the fixed allow-set of `updateServer` /
`modify_server` — "rejects any key not in the fixed allow-set
{cpu, memory, hostname, title, ...}".  The `Server` class carrying
`updateable_fields` is not part of the analysed file; only membership of a
key in the set matters to the claims. -/
def Server.updateable_fields : List String :=
  ["core_number", "memory_amount", "hostname", "title", "firewall"]

/-- Modelled from the spec: construction of an `IP_address` object from one
entry of the wire payload (the `IP_address` class is not part of the
analysed file). -/
def IP_address.fromJson (j : Json) : IP_address :=
  { access := (j.lookupKey "access").bind Json.asStr
    address := (j.lookupKey "address").bind Json.asStr }

/-- Modelled from the spec: `IP_address._create_ip_address_objs` turns the
payload popped from the `"ip_addresses"` key into `IP_address` objects (the
`IP_address` class is not part of the analysed file).  The payload nests the
list under an `"ip_address"` envelope key; a bare list is accepted too. -/
def IP_address.create_ip_address_objs (j : Json) : List IP_address :=
  match j with
  | .arr xs => xs.map IP_address.fromJson
  | .obj _ =>
      match j.lookupKey "ip_address" with
      | some (.arr xs) => xs.map IP_address.fromJson
      | _ => []
  | _ => []

/-- Modelled from the spec: construction of a `Storage` object from one
entry of the wire payload (the `Storage` class is not part of the analysed
file). -/
def Storage.fromJson (j : Json) : Storage :=
  { os := (j.lookupKey "os").bind Json.asStr
    size := (j.lookupKey "size").bind Json.asNum
    tier := (j.lookupKey "tier").bind Json.asStr
    title := (j.lookupKey "title").bind Json.asStr }

/-- Modelled from the spec: `Storage._create_storage_objs` turns the payload
popped from the `"storage_devices"` key into `Storage` objects (the
`Storage` class is not part of the analysed file).  The payload nests the
list under a `"storage_device"` envelope key; a bare list is accepted too. -/
def Storage.create_storage_objs (j : Json) : List Storage :=
  match j with
  | .arr xs => xs.map Storage.fromJson
  | .obj _ =>
      match j.lookupKey "storage_device" with
      | some (.arr xs) => xs.map Storage.fromJson
      | _ => []
  | _ => []

/-- Modelled from the spec: the `Server(...)` constructor applied to a wire
dictionary plus already-built children (the `Server` class is not part of
the analysed file).  Scalar attributes are read from the dictionary when
present (`assignIfExists`). -/
def Server.fromJson (j : Json) (ips : List IP_address) (stors : List Storage)
    (populated : Bool) : Server :=
  { uuid := (j.lookupKey "uuid").bind Json.asStr
    hostname := (j.lookupKey "hostname").bind Json.asStr
    core_number := (j.lookupKey "core_number").bind Json.asNum
    memory_amount := (j.lookupKey "memory_amount").bind Json.asNum
    zone := (j.lookupKey "zone").bind Json.asStr
    title := (j.lookupKey "title").bind Json.asStr
    storage_devices := stors
    ip_addresses := ips
    populated := populated }

/-- Modelled from the spec: `Server._reset` "overwrites the draft's fields
in place with the response (UUID, IPs, storages) and marks hydrated" (the
`Server` class is not part of the analysed file).  Scalar fields present in
the response dictionary overwrite the draft's; the children lists and the
populated flag are replaced. -/
def Server._reset (s : Server) (j : Json) (ips : List IP_address)
    (stors : List Storage) : Server :=
  { uuid := ((j.lookupKey "uuid").bind Json.asStr).orElse (fun _ => s.uuid)
    hostname := ((j.lookupKey "hostname").bind Json.asStr).orElse (fun _ => s.hostname)
    core_number := ((j.lookupKey "core_number").bind Json.asNum).orElse (fun _ => s.core_number)
    memory_amount := ((j.lookupKey "memory_amount").bind Json.asNum).orElse (fun _ => s.memory_amount)
    zone := ((j.lookupKey "zone").bind Json.asStr).orElse (fun _ => s.zone)
    title := ((j.lookupKey "title").bind Json.asStr).orElse (fun _ => s.title)
    storage_devices := stors
    ip_addresses := ips
    populated := true }

/-- Serialize one storage device of the creation payload. -/
def Storage.toJson (d : Storage) : Json :=
  Json.obj
    ((match d.os with | some o => [("os", Json.str o)] | none => []) ++
     (match d.size with | some n => [("size", Json.num n)] | none => []) ++
     (match d.tier with | some tr => [("tier", Json.str tr)] | none => []) ++
     (match d.title with | some ttl => [("title", Json.str ttl)] | none => []))

/-- Modelled from the spec and the `create_server` docstring: the default
filling performed while preparing the creation payload.  For each storage,
`size` defaults to 10 and `tier` to `"maxiops"`; a missing `title` defaults
to the hostname plus `" OS disk"` on the boot volume (the storage carrying
an OS image) and to the hostname plus `" storage disk "` and a running id
for the others; `k` is the next running id (the claims instantiate it
at 1). -/
def storage_defaults (hostname : String) : List Storage → Nat → List Storage
  | [], _ => []
  | d :: rest, k =>
      if d.os.isSome then
        { d with
            size := some (d.size.getD 10)
            tier := some (d.tier.getD "maxiops")
            title := some (d.title.getD (hostname ++ " OS disk")) }
          :: storage_defaults hostname rest k
      else
        { d with
            size := some (d.size.getD 10)
            tier := some (d.tier.getD "maxiops")
            title := some (d.title.getD (hostname ++ " storage disk " ++ toString k)) }
          :: storage_defaults hostname rest (k + 1)

/-- Number of data volumes (storages without an OS image) among the first
`i` storage devices; the running id of the data volume at position `i` in
the creation payload is 1 plus this count. -/
def data_disks_before (devices : List Storage) (i : Nat) : Nat :=
  ((devices.take i).filter (fun d => !d.os.isSome)).length

/-- Serialize the scalar fields of a draft server for the creation body. -/
def Server.scalarFields (s : Server) : List (String × Json) :=
  (match s.core_number with | some n => [("core_number", Json.num n)] | none => []) ++
  (match s.memory_amount with | some n => [("memory_amount", Json.num n)] | none => []) ++
  (match s.hostname with | some h => [("hostname", Json.str h)] | none => []) ++
  (match s.zone with | some z => [("zone", Json.str z)] | none => []) ++
  (match s.title with | some ttl => [("title", Json.str ttl)] | none => [])

/-- Modelled from the spec: `Server.prepare_post_body` (the `Server` class is
not part of the analysed file).  It "validates at least one Storage has an
OS image" — failing with a `ValidationError` before any request is issued —
then fills the per-field defaults and serializes the draft to the creation
payload. -/
def Server.prepare_post_body (s : Server) : Except Err Json :=
  if s.storage_devices.any (fun d => d.os.isSome) then
    .ok (Json.obj [("server", Json.obj
      (s.scalarFields ++
       [("storage_devices", Json.obj
          [("storage_device", Json.arr
             ((storage_defaults (s.hostname.getD "") s.storage_devices 1).map
                Storage.toJson))])]))])
  else
    .error (.validation "no OS storage specified for the server")

namespace ServerManager

/-- The two `pop` lines shared by `create_server`, `modify_server` and
`get_server_data` (source lines 82-83, 109-110 and 138-139): pop
`"ip_addresses"` and `"storage_devices"` from the response's server
dictionary and convert them to object lists; what remains of the dictionary
is handed to the `Server` constructor or to `_reset`. -/
def popSubobjects (srv : Json) :
    Except Err (Json × List IP_address × List Storage) :=
  match srv.popKey "ip_addresses" with
  | .error e => .error e
  | .ok (ipJson, srv₁) =>
      match srv₁.popKey "storage_devices" with
      | .error e => .error e
      | .ok (stJson, srv₂) =>
          .ok (srv₂, IP_address.create_ip_address_objs ipJson,
               Storage.create_storage_objs stJson)

/-- `GET '/server/UUID'` and split the response into the remaining server
dictionary plus the `IP_address` and `Storage` object lists
(`get_server_data`, source lines 129-141).  The request is issued before
any of the response is inspected, so the trace is the singleton either
way. -/
def get_server_data (UUID : String) (t : Transport) :
    Except Err (Json × List IP_address × List Storage) × List Request :=
  let req : Request := ⟨.GET, "/server/" ++ UUID, none⟩
  let data := t req
  (match data.getKey "server" with
   | .error e => .error e
   | .ok srv => popSubobjects srv,
   [req])

/-- Returns a populated `Server` instance (`get_server`, source
lines 34-44). -/
def get_server (UUID : String) (t : Transport) : Except Err Server × List Request :=
  match get_server_data UUID t with
  | (.error e, tr) => (.error e, tr)
  | (.ok (srv, ips, stors), tr) => (.ok (Server.fromJson srv ips stors true), tr)

/-- Modelled from the spec: `Server.populate` (`hydrate`) "fetches full
detail for one server by UUID, populates its Storage and IPAddress
children, marks it hydrated" (the `Server` class is not part of the
analysed file).  It reads the server's own `uuid`, calls `get_server_data`
and `_reset`s the instance with the result. -/
def Server.populate (s : Server) (t : Transport) : Except Err Server × List Request :=
  match s.uuid with
  | none => (.error (.keyError "uuid"), [])
  | some u =>
      match get_server_data u t with
      | (.error e, tr) => (.error e, tr)
      | (.ok (srv, ips, stors), tr) => (.ok (Server._reset s srv ips stors), tr)

/-- The hydration loop of `get_servers(populate=True)` (source lines 27-29):
populate each server in order, stopping at the first failure, and collect
the requests issued. -/
def populate_each : List Server → Transport → Except Err (List Server) × List Request
  | [], _ => (.ok [], [])
  | s :: rest, t =>
      match Server.populate s t with
      | (.error e, tr) => (.error e, tr)
      | (.ok s₁, tr) =>
          match populate_each rest t with
          | (.error e, tr₁) => (.error e, tr ++ tr₁)
          | (.ok rest₁, tr₁) => (.ok (s₁ :: rest₁), tr ++ tr₁)

/-- The unwrapping on source line 21:
`self.get_request("/server")["servers"]["server"]` — the list response's
payload sits under the `"servers"` envelope key, whose `"server"` entry is
the list of server dictionaries. -/
def list_servers_payload (t : Transport) : Except Err (List Json) :=
  match (t ⟨.GET, "/server", none⟩).getKey "servers" with
  | .error e => .error e
  | .ok sv =>
      match sv.getKey "server" with
      | .error e => .error e
      | .ok l => l.asArr

/-- Returns a list of (populated or unpopulated) `Server` instances
(`get_servers`, source lines 14-31): one `GET /server`, unwrap
`["servers"]["server"]`, build one `Server` per entry, and hydrate each of
them when `populate` is true. -/
def get_servers (populate : Bool) (t : Transport) :
    Except Err (List Server) × List Request :=
  let req : Request := ⟨.GET, "/server", none⟩
  match list_servers_payload t with
  | .error e => (.error e, [req])
  | .ok entries =>
      let server_list := entries.map (fun srv => Server.fromJson srv [] [] false)
      if populate then
        match populate_each server_list t with
        | (.error e, tr) => (.error e, req :: tr)
        | (.ok servers, tr) => (.ok servers, req :: tr)
      else
        (.ok server_list, [req])

/-- Creates a server from a locally created draft (`create_server`, source
lines 47-90): prepare the body (validation and defaults happen here, before
any request), `POST /server`, pop the subobjects from the response and
`_reset` the given draft with them. -/
def create_server (server : Server) (t : Transport) :
    Except Err Server × List Request :=
  match server.prepare_post_body with
  | .error e => (.error e, [])
  | .ok body =>
      let req : Request := ⟨.POST, "/server", some body⟩
      let res := t req
      match res.getKey "server" with
      | .error e => (.error e, [req])
      | .ok srv =>
          match popSubobjects srv with
          | .error e => (.error e, [req])
          | .ok (srv₁, ips, stors) =>
              (.ok (Server._reset server srv₁ ips stors), [req])

/-- The body-building loop of `modify_server` (source lines 100-103).  The
source tests `arg not in Server.updateable_fields` and, in that branch,
builds `Exception(str(arg) + " is not an updateable field")` WITHOUT raising
it (line 102 has no `raise`), so the test has no effect: every keyword
argument is written to the body. -/
def modify_body : List (String × Json) → List (String × Json)
  | [] => []
  | (k, v) :: rest =>
      if k ∈ Server.updateable_fields then (k, v) :: modify_body rest
      else
        (k, v) :: modify_body rest

/-- Updates a server's fields (`modify_server`, source lines 93-116): build
the body from the keyword arguments, `PUT /server/UUID`, pop the subobjects
from the response and return a fresh populated `Server`. -/
def modify_server (UUID : String) (kwargs : List (String × Json)) (t : Transport) :
    Except Err Server × List Request :=
  let body := Json.obj [("server", Json.obj (modify_body kwargs))]
  let req : Request := ⟨.PUT, "/server/" ++ UUID, some body⟩
  let res := t req
  match res.getKey "server" with
  | .error e => (.error e, [req])
  | .ok srv =>
      match popSubobjects srv with
      | .error e => (.error e, [req])
      | .ok (srv₁, ips, stors) =>
          (.ok (Server.fromJson srv₁ ips stors true), [req])

/-- `DELETE '/server/UUID'` (`delete_server`, source lines 119-126): one
request, whose raw response is returned unparsed; no storage endpoint is
touched. -/
def delete_server (UUID : String) (t : Transport) : Except Err Json × List Request :=
  let req : Request := ⟨.DELETE, "/server/" ++ UUID, none⟩
  (.ok (t req), [req])

/-- The per-rule POST loop of `configure_firewall` (source lines 179-181):
one `POST` per rule, in list order, each response discarded. -/
def post_rules (url : String) (rules : List Json) (t : Transport) : List Request :=
  match rules with
  | [] => []
  | rule :: rest =>
      let body := Json.obj [("firewall_rule", rule)]
      let req : Request := ⟨.POST, url, some body⟩
      let _ := t req
      req :: post_rules url rest t

/-- Configures the firewall of an existing server (`configure_firewall`,
source lines 143-182): POST each rule to
`/server/UUID/firewall_rule`, then GET the same path and return its raw
response. -/
def configure_firewall (UUID : String) (rules : List Json) (t : Transport) :
    Json × List Request :=
  let url := "/server/" ++ UUID ++ "/firewall_rule"
  let tr := post_rules url rules t
  let req : Request := ⟨.GET, url, none⟩
  (t req, tr ++ [req])

/-- A tiny object heap: Python object references become indices into a list
of `Server` objects.  `create_server` mutates the draft it is given and
returns that same reference, which this model makes observable. -/
abbrev Heap : Type := List Server

/-- `create_server` at the reference level: look the draft up in the heap,
run `create_server` on it and, on success, write the `_reset` result back
into the SAME cell and return the SAME reference (the source mutates the
draft via `server._reset(...)` and ends with `return server`). -/
def create_server_ref (heap : Heap) (ref : Nat) (t : Transport) :
    Except Err (Heap × Nat) × List Request :=
  match heap[ref]? with
  | none => (.error .typeError, [])
  | some s =>
      match create_server s t with
      | (.error e, tr) => (.error e, tr)
      | (.ok s₁, tr) => (.ok (heap.set ref s₁, ref), tr)

end ServerManager

/-- Modelled from the spec: the provider-side state the requests act on,
reduced to the resources the claims mention — the set of existing server
UUIDs and the set of existing storage UUIDs. -/
structure ApiState where
  servers : List String
  storages : List String

/-- Modelled from the spec: the effect of one request on the provider's
state.  `DELETE /server/{uuid}` removes that server and nothing else —
"storages persist after server deletion"; `DELETE /storage/{uuid}` is the
only request that removes a storage; every other request leaves both sets
unchanged. -/
def apiStep (st : ApiState) (r : Request) : ApiState :=
  match r.method with
  | .DELETE =>
      if "/server/".data.isPrefixOf r.path.data then
        { st with servers := st.servers.filter (fun u => !("/server/" ++ u == r.path)) }
      else if "/storage/".data.isPrefixOf r.path.data then
        { st with storages := st.storages.filter (fun u => !("/storage/" ++ u == r.path)) }
      else st
  | _ => st

/-- The provider's state after a trace of requests. -/
def applyTrace (st : ApiState) (tr : List Request) : ApiState :=
  tr.foldl apiStep st

theorem data_isPrefixOf_append_self (s u : String) :
    s.data.isPrefixOf (s ++ u).data = true := by
  simp [String.data_append, List.isPrefixOf_iff_prefix]

theorem post_rules_eq_map (url : String) (rules : List Json) (t : Transport) :
    ServerManager.post_rules url rules t =
      rules.map (fun rule =>
        ⟨.POST, url, some (Json.obj [("firewall_rule", rule)])⟩) := by
  induction rules with
  | nil => rfl
  | cons r rest ih => simp [ServerManager.post_rules, ih]

/-- Claim C5: for every list of n firewall rules, `configure_firewall(UUID,
rules)` issues exactly n POST requests to `/server/UUID/firewall_rule`, one
per rule in list order, followed by exactly one GET to the same path, and
returns the result of that final GET. -/
theorem configure_firewall_posts_then_get (UUID : String) (rules : List Json)
    (t : Transport) :
    ServerManager.configure_firewall UUID rules t =
      (t ⟨.GET, "/server/" ++ UUID ++ "/firewall_rule", none⟩,
       rules.map (fun rule =>
         ⟨.POST, "/server/" ++ UUID ++ "/firewall_rule",
          some (Json.obj [("firewall_rule", rule)])⟩) ++
       [⟨.GET, "/server/" ++ UUID ++ "/firewall_rule", none⟩]) := by
  simp [ServerManager.configure_firewall, post_rules_eq_map]

/-- Claim C9: for the empty rule list, `configure_firewall(UUID, [])` issues
zero POST requests and exactly one GET to `/server/UUID/firewall_rule`,
returning the response of that GET (the current rule set) unchanged. -/
theorem configure_firewall_empty_rules (UUID : String) (t : Transport) :
    ServerManager.configure_firewall UUID [] t =
      (t ⟨.GET, "/server/" ++ UUID ++ "/firewall_rule", none⟩,
       [⟨.GET, "/server/" ++ UUID ++ "/firewall_rule", none⟩]) := rfl

/-- Claim C7: for every UUID, `delete_server(UUID)` issues exactly one
DELETE request, to `/server/UUID`, and no other request; applying that
trace to any provider state leaves the set of storages untouched (deletion
does not cascade to the server's attached storages). -/
theorem delete_server_single_delete_no_cascade (UUID : String) (t : Transport)
    (st : ApiState) :
    ServerManager.delete_server UUID t =
      (.ok (t ⟨.DELETE, "/server/" ++ UUID, none⟩),
       [⟨.DELETE, "/server/" ++ UUID, none⟩]) ∧
    (applyTrace st (ServerManager.delete_server UUID t).2).storages = st.storages := by
  refine ⟨rfl, ?_⟩
  show (apiStep st ⟨.DELETE, "/server/" ++ UUID, none⟩).storages = st.storages
  simp [apiStep, data_isPrefixOf_append_self]

/-- Claim C10: popping the subobjects from a response's server dictionary
(the two lines shared by `create_server`, `modify_server` and
`get_server_data`) really removes the `"ip_addresses"` and
`"storage_devices"` keys: whenever `popSubobjects` succeeds, the remaining
dictionary — the raw server data handed to the `Server` constructor or to
`_reset` — contains neither key. -/
theorem popSubobjects_removes_subobject_keys (srv srv₁ : Json)
    (ips : List IP_address) (stors : List Storage)
    (h : ServerManager.popSubobjects srv = .ok (srv₁, ips, stors)) :
    srv₁.lookupKey "ip_addresses" = none ∧
    srv₁.lookupKey "storage_devices" = none := by
  unfold ServerManager.popSubobjects at h
  cases srv with
  | obj kvs =>
      simp only [Json.popKey] at h
      cases h₁ : lookupPairs kvs "ip_addresses" with
      | none => rw [h₁] at h; exact absurd h (by simp)
      | some v₁ =>
          rw [h₁] at h
          simp only at h
          cases h₂ : lookupPairs (removeKey kvs "ip_addresses") "storage_devices" with
          | none => rw [h₂] at h; exact absurd h (by simp)
          | some v₂ =>
              rw [h₂] at h
              simp only [Except.ok.injEq, Prod.mk.injEq] at h
              obtain ⟨hsrv, -, -⟩ := h
              subst hsrv
              constructor
              · exact lookupPairs_removeKey_of_none _ _ _
                  (lookupPairs_removeKey_self kvs "ip_addresses")
              · exact lookupPairs_removeKey_self _ _
  | null => exact absurd h (by simp [Json.popKey])
  | str s => exact absurd h (by simp [Json.popKey])
  | num n => exact absurd h (by simp [Json.popKey])
  | bool b => exact absurd h (by simp [Json.popKey])
  | arr xs => exact absurd h (by simp [Json.popKey])

/-- Witness for C10 at a concrete response dictionary. -/
theorem popSubobjects_removes_subobject_keys_witness :
    (Json.obj [("uuid", Json.str "u")]).lookupKey "ip_addresses" = none ∧
    (Json.obj [("uuid", Json.str "u")]).lookupKey "storage_devices" = none :=
  popSubobjects_removes_subobject_keys
    (Json.obj [("uuid", Json.str "u"), ("ip_addresses", Json.arr []),
               ("storage_devices", Json.arr [])])
    (Json.obj [("uuid", Json.str "u")]) [] [] rfl

/-- A transport whose every response is a well-formed server envelope (used
to evaluate `modify_server` at a concrete input). -/
def trPut : Transport := fun _ =>
  Json.obj [("server", Json.obj
    [("uuid", Json.str "u1"), ("hostname", Json.str "host"),
     ("ip_addresses", Json.arr []), ("storage_devices", Json.arr [])])]

/-- Claim C1, evaluated at the failing input (code bug): source line 102
builds `Exception(str(arg) + " is not an updateable field")` but never
raises it, so `modify_server` called with the keyword `not_a_field` — which
is outside `Server.updateable_fields` — does not fail: it issues the PUT to
`/server/u1` with the unknown key inside the body and returns a populated
`Server`, instead of failing validation with zero network requests as the
claim states. -/
theorem modify_server_unknown_key_still_puts :
    "not_a_field" ∉ Server.updateable_fields ∧
    isOk (ServerManager.modify_server "u1"
      [("not_a_field", Json.str "x")] trPut).1 = true ∧
    (ServerManager.modify_server "u1" [("not_a_field", Json.str "x")] trPut).2 =
      [⟨.PUT, "/server/u1",
        some (Json.obj [("server", Json.obj [("not_a_field", Json.str "x")])])⟩] := by
  exact ⟨by decide, rfl, rfl⟩

/-- Claim C2: for every draft server none of whose storages carries an OS
image, `create_server` fails with a `ValidationError` during payload
preparation and issues no network request at all. -/
theorem create_server_no_boot_volume_validation (s : Server) (t : Transport)
    (h : ∀ d ∈ s.storage_devices, d.os = none) :
    ServerManager.create_server s t =
      (.error (Err.validation "no OS storage specified for the server"), []) := by
  have hany : s.storage_devices.any (fun d => d.os.isSome) = false := by
    rw [List.any_eq_false]
    intro d hd
    simp [h d hd]
  simp [ServerManager.create_server, Server.prepare_post_body, hany]

/-- A transport used where the response never matters. -/
def trAny : Transport := fun _ => Json.null

/-- A draft server whose single storage device carries no OS image. -/
def draftNoOs : Server :=
  { uuid := none, hostname := some "my.example.1", core_number := some 1,
    memory_amount := some 512, zone := some "uk-lon1", title := some "My Server",
    storage_devices := [{ os := none, size := some 10, tier := none, title := none }],
    ip_addresses := [], populated := false }

/-- Witness for C2 at a concrete draft and transport. -/
theorem create_server_no_boot_volume_validation_witness :
    ServerManager.create_server draftNoOs trAny =
      (.error (Err.validation "no OS storage specified for the server"), []) :=
  create_server_no_boot_volume_validation draftNoOs trAny (by decide)

theorem data_disks_before_cons_os (d₀ : Storage) (rest : List Storage) (i : Nat)
    (h0 : d₀.os.isSome = true) :
    data_disks_before (d₀ :: rest) (i + 1) = data_disks_before rest i := by
  have h1 : ¬ d₀.os = none := by cases hos : d₀.os <;> simp_all
  simp [data_disks_before, List.take_succ_cons, List.filter_cons, h0, h1]

theorem data_disks_before_cons_data (d₀ : Storage) (rest : List Storage) (i : Nat)
    (h0 : d₀.os.isSome = false) :
    data_disks_before (d₀ :: rest) (i + 1) = 1 + data_disks_before rest i := by
  have h1 : d₀.os = none := by cases hos : d₀.os <;> simp_all
  simp [data_disks_before, List.take_succ_cons, List.filter_cons, h1, Nat.add_comm]

theorem storage_defaults_cons_os (h : String) (d₀ : Storage) (rest : List Storage)
    (k : Nat) (h0 : d₀.os.isSome = true) :
    storage_defaults h (d₀ :: rest) k =
      { d₀ with
          size := some (d₀.size.getD 10)
          tier := some (d₀.tier.getD "maxiops")
          title := some (d₀.title.getD (h ++ " OS disk")) }
        :: storage_defaults h rest k := by
  simp [storage_defaults, h0]

theorem storage_defaults_cons_data (h : String) (d₀ : Storage) (rest : List Storage)
    (k : Nat) (h0 : d₀.os.isSome = false) :
    storage_defaults h (d₀ :: rest) k =
      { d₀ with
          size := some (d₀.size.getD 10)
          tier := some (d₀.tier.getD "maxiops")
          title := some (d₀.title.getD (h ++ " storage disk " ++ toString k)) }
        :: storage_defaults h rest (k + 1) := by
  simp [storage_defaults, h0]

theorem storage_defaults_get (h : String) :
    ∀ (devices : List Storage) (k i : Nat) (d : Storage), devices[i]? = some d →
      (storage_defaults h devices k)[i]? = some
        { d with
            size := some (d.size.getD 10)
            tier := some (d.tier.getD "maxiops")
            title := some (d.title.getD (if d.os.isSome then h ++ " OS disk"
              else h ++ " storage disk " ++
                toString (k + data_disks_before devices i))) } := by
  intro devices
  induction devices with
  | nil => intro k i d hd; simp at hd
  | cons d₀ rest ih =>
      intro k i d hd
      cases i with
      | zero =>
          simp only [List.getElem?_cons_zero, Option.some.injEq] at hd
          subst hd
          cases h0 : d₀.os.isSome with
          | true =>
              rw [storage_defaults_cons_os h d₀ rest k h0]
              simp [h0]
          | false =>
              rw [storage_defaults_cons_data h d₀ rest k h0]
              simp [h0, data_disks_before]
      | succ i =>
          simp only [List.getElem?_cons_succ] at hd
          cases h0 : d₀.os.isSome with
          | true =>
              rw [storage_defaults_cons_os h d₀ rest k h0,
                List.getElem?_cons_succ, data_disks_before_cons_os d₀ rest i h0]
              exact ih k i d hd
          | false =>
              rw [storage_defaults_cons_data h d₀ rest k h0,
                List.getElem?_cons_succ, data_disks_before_cons_data d₀ rest i h0,
                ← Nat.add_assoc]
              exact ih (k + 1) i d hd

/-- Claim C3: in the creation payload prepared by `create_server` (which
serializes `storage_defaults hostname devices 1`, see
`Server.prepare_post_body`), every storage with an omitted field receives
its deterministic default: size 10, tier `"maxiops"`, and a title equal to
the hostname plus `" OS disk"` for the boot volume or the hostname plus
`" storage disk "` and a running id starting from 1 for the data
volumes. -/
theorem create_server_storage_defaults (h : String) (devices : List Storage)
    (i : Nat) (d : Storage) (hd : devices[i]? = some d) :
    (storage_defaults h devices 1)[i]? = some
      { d with
          size := some (d.size.getD 10)
          tier := some (d.tier.getD "maxiops")
          title := some (d.title.getD (if d.os.isSome then h ++ " OS disk"
            else h ++ " storage disk " ++
              toString (1 + data_disks_before devices i))) } :=
  storage_defaults_get h devices 1 i d hd

/-- The storage list of the `create_server` docstring example: one boot
volume with explicit fields, then two data volumes with omitted fields. -/
def devC3 : List Storage :=
  [{ os := some "Ubuntu 14.04", size := some 10, tier := some "maxiops",
     title := some "The OS drive" },
   { os := none, size := some 10, tier := none, title := none },
   { os := none, size := none, tier := none, title := none }]

/-- Witness for C3: the third storage of the example draft (second data
volume) gets size 10, tier maxiops and the running-id title
`"my.example.1 storage disk 2"`. -/
theorem create_server_storage_defaults_witness :
    (storage_defaults "my.example.1" devC3 1)[2]? = some
      { os := none, size := some 10, tier := some "maxiops",
        title := some "my.example.1 storage disk 2" } := by
  have hw := create_server_storage_defaults "my.example.1" devC3 2
    { os := none, size := none, tier := none, title := none } rfl
  exact hw

theorem get_server_data_trace (u : String) (t : Transport) :
    (ServerManager.get_server_data u t).2 = [⟨.GET, "/server/" ++ u, none⟩] := rfl

theorem populate_trace_of_uuid (s : Server) (t : Transport) (u : String)
    (hu : s.uuid = some u) :
    (ServerManager.Server.populate s t).2 = [⟨.GET, "/server/" ++ u, none⟩] := by
  unfold ServerManager.Server.populate
  rw [hu]
  cases hg : ServerManager.get_server_data u t with
  | mk res tr =>
      have htr : tr = [⟨.GET, "/server/" ++ u, none⟩] := by
        have h2 := congrArg Prod.snd hg
        simpa [ServerManager.get_server_data] using h2.symm
      cases res with
      | error e => simp [hg, htr]
      | ok v =>
          obtain ⟨srv, ips, stors⟩ := v
          simp [hg, htr]

theorem populate_isOk_uuid (s : Server) (t : Transport)
    (h : isOk (ServerManager.Server.populate s t).1 = true) :
    ∃ u, s.uuid = some u := by
  cases hs : s.uuid with
  | none =>
      unfold ServerManager.Server.populate at h
      rw [hs] at h
      simp [isOk] at h
  | some u => exact ⟨u, rfl⟩

theorem populate_trace_length_of_ok (s : Server) (t : Transport)
    (h : isOk (ServerManager.Server.populate s t).1 = true) :
    (ServerManager.Server.populate s t).2.length = 1 := by
  obtain ⟨u, hu⟩ := populate_isOk_uuid s t h
  rw [populate_trace_of_uuid s t u hu]
  rfl

theorem populate_each_ok (t : Transport) :
    ∀ l : List Server,
      (∀ s ∈ l, isOk (ServerManager.Server.populate s t).1 = true) →
      isOk (ServerManager.populate_each l t).1 = true ∧
      (ServerManager.populate_each l t).2.length = l.length := by
  intro l
  induction l with
  | nil => intro _; exact ⟨rfl, rfl⟩
  | cons s rest ih =>
      intro hall
      have hs := hall s (by simp)
      have hrest := ih (fun x hx => hall x (by simp [hx]))
      cases hp : ServerManager.Server.populate s t with
      | mk r tr =>
          cases r with
          | error e => rw [hp] at hs; simp [isOk] at hs
          | ok s₁ =>
              have htr : tr.length = 1 := by
                have hl := populate_trace_length_of_ok s t hs
                rw [hp] at hl
                exact hl
              cases hq : ServerManager.populate_each rest t with
              | mk rr trr =>
                  cases rr with
                  | error e =>
                      rw [hq] at hrest
                      simp [isOk] at hrest
                  | ok l₁ =>
                      rw [hq] at hrest
                      refine ⟨?_, ?_⟩
                      · simp [ServerManager.populate_each, hp, hq, isOk]
                      · simp [ServerManager.populate_each, hp, hq, htr,
                          hrest.2, Nat.add_comm]

/-- Claim C4: `get_servers(populate=False)` issues exactly 1 API request,
and `get_servers(populate=True)` issues exactly `1 + n` requests, where `n`
is the number of servers in the list response (one list request plus one
hydration request per returned server). -/
theorem get_servers_request_counts (t : Transport) (entries : List Json)
    (hres : ServerManager.list_servers_payload t = .ok entries)
    (hpop : ∀ e ∈ entries,
      isOk (ServerManager.Server.populate (Server.fromJson e [] [] false) t).1
        = true) :
    (ServerManager.get_servers false t).2.length = 1 ∧
    (ServerManager.get_servers true t).2.length = 1 + entries.length := by
  refine ⟨by simp [ServerManager.get_servers, hres], ?_⟩
  have hall : ∀ s ∈ entries.map (fun srv => Server.fromJson srv [] [] false),
      isOk (ServerManager.Server.populate s t).1 = true := by
    intro s hs
    obtain ⟨e, he, rfl⟩ := List.mem_map.mp hs
    exact hpop e he
  obtain ⟨hok, hlen⟩ := populate_each_ok t _ hall
  cases hq : ServerManager.populate_each
      (entries.map (fun srv => Server.fromJson srv [] [] false)) t with
  | mk r tr =>
      cases r with
      | error e => rw [hq] at hok; simp [isOk] at hok
      | ok l₁ =>
          rw [hq] at hlen
          simp only [List.length_map] at hlen
          simp [ServerManager.get_servers, hres, hq, hlen, Nat.add_comm]

/-- A stub entry of the `GET /server` list response. -/
def srvStub (u : String) : Json :=
  Json.obj [("uuid", Json.str u), ("hostname", Json.str ("host-" ++ u))]

/-- A full `GET /server/uuid` detail response. -/
def srvDetail (u : String) : Json :=
  Json.obj [("server", Json.obj
    [("uuid", Json.str u), ("hostname", Json.str ("host-" ++ u)),
     ("ip_addresses", Json.arr []), ("storage_devices", Json.arr [])])]

/-- A transport serving two servers: the list endpoint plus one detail
endpoint per server. -/
def trC4 : Transport := fun r =>
  if r.path = "/server" then
    Json.obj [("servers", Json.obj
      [("server", Json.arr [srvStub "u1", srvStub "u2"])])]
  else if r.path = "/server/u1" then srvDetail "u1"
  else if r.path = "/server/u2" then srvDetail "u2"
  else Json.null

/-- Witness for C4 with two servers: 1 request unpopulated, 3 populated. -/
theorem get_servers_request_counts_witness :
    (ServerManager.get_servers false trC4).2.length = 1 ∧
    (ServerManager.get_servers true trC4).2.length = 3 := by
  have hw := get_servers_request_counts trC4 [srvStub "u1", srvStub "u2"]
    rfl (by decide)
  exact ⟨hw.1, hw.2⟩

/-- Claim C8: for every list response whose payload is nested under the
`"servers"` envelope key (the server list sitting at its `"server"` entry,
as on source line 21), `get_servers` unwraps the envelope and returns one
`Server` instance per entry of that payload. -/
theorem get_servers_unwraps_servers_envelope (t : Transport) (entries : List Json)
    (ht : t ⟨.GET, "/server", none⟩ =
      Json.obj [("servers", Json.obj [("server", Json.arr entries)])]) :
    (ServerManager.get_servers false t).1 =
      .ok (entries.map (fun srv => Server.fromJson srv [] [] false)) := by
  have hres : ServerManager.list_servers_payload t = .ok entries := by
    unfold ServerManager.list_servers_payload
    rw [ht]
    rfl
  simp [ServerManager.get_servers, hres]

/-- A transport whose every response is the two-server list envelope. -/
def trC8 : Transport := fun _ =>
  Json.obj [("servers", Json.obj
    [("server", Json.arr [srvStub "u1", srvStub "u2"])])]

/-- Witness for C8 at a concrete two-entry list response. -/
theorem get_servers_unwraps_servers_envelope_witness :
    (ServerManager.get_servers false trC8).1 =
      .ok ([srvStub "u1", srvStub "u2"].map
        (fun srv => Server.fromJson srv [] [] false)) :=
  get_servers_unwraps_servers_envelope trC8 [srvStub "u1", srvStub "u2"] rfl

/-- Claim C6: on every successful `create_server(server)` call, the draft
object itself is overwritten (`_reset`) with the fields of the API response
— its IP addresses and storage devices become the response's objects — it
is marked populated, and the function returns that same object: in the
reference model, the heap cell of the passed-in draft is updated and the
returned reference is the argument reference itself, not a copy. -/
theorem create_server_populates_in_place (heap : ServerManager.Heap) (ref : Nat) (s : Server)
    (t : Transport) (s₁ : Server) (tr : List Request)
    (hheap : heap[ref]? = some s)
    (hok : ServerManager.create_server s t = (.ok s₁, tr)) :
    ServerManager.create_server_ref heap ref t =
      (.ok (heap.set ref s₁, ref), tr) ∧
    (heap.set ref s₁)[ref]? = some s₁ ∧
    s₁.populated = true ∧
    ∃ srv ips stors, s₁ = Server._reset s srv ips stors ∧
      s₁.ip_addresses = ips ∧ s₁.storage_devices = stors := by
  have hshape : ∃ srv ips stors, s₁ = Server._reset s srv ips stors := by
    unfold ServerManager.create_server at hok
    split at hok
    · simp at hok
    · dsimp only at hok
      split at hok
      · simp at hok
      · split at hok
        · simp at hok
        · simp only [Prod.mk.injEq, Except.ok.injEq] at hok
          exact ⟨_, _, _, hok.1.symm⟩
  obtain ⟨srv₀, ips₀, stors₀, hs₁⟩ := hshape
  obtain ⟨hlt, -⟩ := List.getElem?_eq_some.mp hheap
  refine ⟨?_, ?_, ?_, srv₀, ips₀, stors₀, hs₁, ?_, ?_⟩
  · simp [ServerManager.create_server_ref, hheap, hok]
  · simp [List.getElem?_set_self, hlt]
  · rw [hs₁]; rfl
  · rw [hs₁]; rfl
  · rw [hs₁]; rfl

/-- A draft server whose single storage device carries the OS image. -/
def draftOs : Server :=
  { uuid := none, hostname := some "my.example.1", core_number := some 1,
    memory_amount := some 512, zone := some "uk-lon1", title := some "My Server",
    storage_devices := [{ os := some "Ubuntu 14.04", size := none, tier := none,
                          title := none }],
    ip_addresses := [], populated := false }

/-- A transport answering the creation POST with a well-formed server
envelope. -/
def trC6 : Transport := fun _ =>
  Json.obj [("server", Json.obj
    [("uuid", Json.str "u-created"),
     ("ip_addresses", Json.arr
        [Json.obj [("access", Json.str "public"),
                   ("address", Json.str "10.0.0.1")]]),
     ("storage_devices", Json.arr
        [Json.obj [("size", Json.num 10),
                   ("title", Json.str "my.example.1 OS disk")]])])]

/-- The hydrated server `create_server draftOs trC6` writes back into the
draft's heap cell: response UUID, response children, populated. -/
def s1C6 : Server :=
  { uuid := some "u-created", hostname := some "my.example.1",
    core_number := some 1, memory_amount := some 512, zone := some "uk-lon1",
    title := some "My Server",
    storage_devices := [{ os := none, size := some 10, tier := none,
                          title := some "my.example.1 OS disk" }],
    ip_addresses := [{ access := some "public", address := some "10.0.0.1" }],
    populated := true }

/-- Witness for C6 on a one-cell heap: the same reference 0 comes back, its
cell now holds the hydrated server, which is marked populated. -/
theorem create_server_populates_in_place_witness :
    ServerManager.create_server_ref [draftOs] 0 trC6 =
      (.ok ([s1C6], 0), (ServerManager.create_server draftOs trC6).2) ∧
    ([s1C6] : ServerManager.Heap)[0]? = some s1C6 ∧
    s1C6.populated = true := by
  have hw := create_server_populates_in_place [draftOs] 0 draftOs trC6 s1C6
    (ServerManager.create_server draftOs trC6).2 rfl rfl
  exact ⟨hw.1, hw.2.1, hw.2.2.1⟩

end Upcloud
